import Mathlib

/-!
Shallow embedding of `createConfig` from the liris-tech/create-config package
(`common.js`), together with the parts of lodash 4.17.21 (the pinned
dependency) that the function relies on: `_.get`, `_.mergeWith` with the
custom array conflict rule, `_.reverse`, `Array.prototype.concat`,
`String.prototype.split` and the nil filtering of the lodash chain.

JavaScript values are modelled by the mutually inductive types `JVal`
(a JSON-like value), `JArr` (arrays) and `JObj` (plain objects as ordered
key/value lists, the order being JS enumeration order).  The JS value
`undefined` is modelled by `Option JVal`: `none` is `undefined`, while the
JS value `null` is the constructor `JVal.null`.
-/

mutual

inductive JVal where
  | null
  | bool (b : Bool)
  | num (n : Int)
  | str (s : String)
  | arr (xs : JArr)
  | obj (kvs : JObj)
  deriving DecidableEq

inductive JArr where
  | nil
  | cons (v : JVal) (rest : JArr)
  deriving DecidableEq

inductive JObj where
  | nil
  | cons (k : String) (v : JVal) (rest : JObj)
  deriving DecidableEq

end

/-- Build a `JArr` from a Lean list (readability helper for examples). -/
def jarrOf : List JVal → JArr
  | [] => .nil
  | v :: rest => .cons v (jarrOf rest)

/-- Build a `JObj` from a Lean association list (readability helper). -/
def jobjOf : List (String × JVal) → JObj
  | [] => .nil
  | (k, v) :: rest => .cons k v (jobjOf rest)

/-- Object literal helper: `jobj [("a", v)]` is the JS value `{a: v}`. -/
def jobj (l : List (String × JVal)) : JVal := .obj (jobjOf l)

/-- Array literal helper: `jarr [v, w]` is the JS value `[v, w]`. -/
def jarr (l : List JVal) : JVal := .arr (jarrOf l)

/-- The elements of a `JArr` as a Lean list. -/
def JArr.toList : JArr → List JVal
  | .nil => []
  | .cons v rest => v :: rest.toList

/-- Number of elements of a `JArr` (JS `array.length`). -/
def JArr.length : JArr → Nat
  | .nil => 0
  | .cons _ rest => rest.length + 1

/-- Element at a numeric index (JS `array[i]`, `undefined` when out of range). -/
def JArr.get? : JArr → Nat → Option JVal
  | .nil, _ => none
  | .cons v _, 0 => some v
  | .cons _ rest, n + 1 => rest.get? n

/-- Property read on an object (JS `object[k]`, `undefined` when missing). -/
def JObj.lookup : JObj → String → Option JVal
  | .nil, _ => none
  | .cons k' v rest, k => if k' = k then some v else rest.lookup k

/-- Whether the object has the key (JS `k in object` for own keys). -/
def JObj.hasKey : JObj → String → Bool
  | .nil, _ => false
  | .cons k' _ rest, k => k' = k || rest.hasKey k

/-- Property write (JS `object[k] = v`): updates in place, or appends a new
key at the end, matching JS string-key insertion order. -/
def JObj.set : JObj → String → JVal → JObj
  | .nil, k, v => .cons k v .nil
  | .cons k' v' rest, k, v =>
      if k' = k then .cons k' v rest else .cons k' v' (rest.set k v)

/-! ## lodash `_.get`

`_.get(object, path)` with an array path walks `object[key]` segment by
segment while the current value is not nullish (`baseGet` in lodash
4.17.21).  Its quirks are modelled faithfully:
* an empty path returns `undefined` (the `index && index == length` guard),
* property reads on strings and arrays support numeric indices (canonical
  decimal form only) and `length`,
* property reads on numbers, booleans and `null` yield `undefined`,
* a `null` final value is returned, while `null` met mid-path stops the
  walk with `undefined`.
-/

/-- Numeric value of a list of decimal digit characters. -/
def digitsVal (l : List Char) : Nat :=
  l.foldl (fun a c => a * 10 + (c.toNat - 48)) 0

/-- A string that is a canonical array index (JS array property access
`a["2"]` hits the element, `a["02"]` does not): all decimal digits, no
leading zero except for `"0"` itself. -/
def parseIdx (k : String) : Option Nat :=
  match k.data with
  | [] => none
  | c :: cs =>
      if (c :: cs).all Char.isDigit then
        if c = '0' && cs != [] then none else some (digitsVal (c :: cs))
      else none

/-- One JS property read `v[k]` on a non-nullish value. -/
def getStep (v : JVal) (k : String) : Option JVal :=
  match v with
  | .obj kvs => kvs.lookup k
  | .arr xs =>
      if k = "length" then some (.num xs.length)
      else (parseIdx k).bind fun i => xs.get? i
  | .str s =>
      if k = "length" then some (.num s.length)
      else (parseIdx k).bind fun i => (s.data.get? i).map fun c => .str (String.singleton c)
  | _ => none

/-- The walk of lodash `baseGet`: step while the current value is neither
`null` nor `undefined`; a nullish value reached before the last segment
gives `undefined`. -/
def jgetGo (v : JVal) : List String → Option JVal
  | [] => some v
  | k :: ks =>
      match v with
      | .null => none
      | _ =>
          match getStep v k with
          | none => none
          | some v' => jgetGo v' ks

/-- lodash `_.get(object, path)` with an array path.  An empty path yields
`undefined` — `baseGet` returns `(index && index == length) ? object :
undefined` and `index` is `0`. -/
def jget (v : JVal) : List String → Option JVal
  | [] => none
  | k :: ks => jgetGo v (k :: ks)

/-- Split a character list on `'.'`, keeping empty segments. -/
def splitDotGo : List Char → List Char → List String
  | [], cur => [String.mk cur.reverse]
  | c :: rest, cur =>
      if c = '.' then String.mk cur.reverse :: splitDotGo rest []
      else splitDotGo rest (c :: cur)

/-- JS `s.split('.')` (and lodash `stringToPath` on the dot-joined lookup
strings this program builds: plain segments separated by dots).  As in JS,
`''.split('.')` is `['']` and empty segments are kept. -/
def splitDot (s : String) : List String := splitDotGo s.data []

/-- JS `array.join('.')`. -/
def joinDot (l : List String) : String := String.intercalate "." l

/-- lodash `_.get(doc, pathString)` where `doc` may be `undefined` (the
`findOne` result) and the path is a dotted string. -/
def jgetDoc (doc : Option JVal) (s : String) : Option JVal :=
  match doc with
  | none => none
  | some d => jget d (splitDot s)

/-! ## lodash `_.mergeWith` with the customizer of `createConfig`

The customizer (common.js lines 89–103) is
```js
(left, right) => {
  if (_.isArray(right)) { return right; }
  else if (_.isArray(left)) {
    if (_.isNil(right)) { return left; } else { return right; }
  }
}
```
`_.mergeWith({}, ...sources, customizer)` iterates each truthy source's
enumerable keys (`keysIn`): objects contribute their keys, arrays their
indices, strings their character indices (a lodash quirk that matters
below), numbers and booleans contribute nothing, and falsy sources are
skipped entirely (`createAssigner`'s `if (source)`).

For each key: an object-typed source value goes through `baseMergeDeep` —
with this customizer an array source value is assigned wholesale, an
object source value replaces an array destination wholesale and otherwise
merges recursively into the destination object (or into a fresh `{}` when
the destination value is not an object).  A non-object source value takes
the customizer's answer: it preserves an array destination when the source
value is `null`, otherwise the source value overwrites.

Out of modelled scope (unreachable for the values handled in this file):
lodash's `isIterateeCall` argument-guard heuristics, cyclic-reference
tracking (`Stack`), buffers/typed arrays, and inherited enumerable keys.
-/

/-- The non-object branch of `baseMerge` under this customizer: `null`
does not overwrite an array destination, everything else is assigned. -/
def scalarAssign (dest : JObj) (k : String) (v : JVal) : JObj :=
  match dest.lookup k, v with
  | some (.arr _), .null => dest
  | _, _ => dest.set k v

/-- Merge a string source: `keysIn` on a string enumerates its character
indices, so each character is assigned at its index key. -/
def mergeChars (dest : JObj) (i : Nat) : List Char → JObj
  | [] => dest
  | c :: rest => mergeChars (scalarAssign dest (toString i) (.str (String.singleton c))) (i + 1) rest

mutual

/-- `baseMerge(dest, source)` of lodash 4.17.21 under this customizer:
iterate the source's enumerable keys into the destination object. -/
def mergeSource (dest : JObj) : JVal → JObj
  | .obj kvs => mergeEntries dest kvs
  | .arr xs => mergeArr dest 0 xs
  | .str s => mergeChars dest 0 s.data
  | _ => dest

/-- Merge each key/value entry of an object source. -/
def mergeEntries (dest : JObj) : JObj → JObj
  | .nil => dest
  | .cons k v rest => mergeEntries (mergeKey dest k v) rest

/-- Merge the elements of an array source at their index keys. -/
def mergeArr (dest : JObj) (i : Nat) : JArr → JObj
  | .nil => dest
  | .cons v rest => mergeArr (mergeKey dest (toString i) v) (i + 1) rest

/-- Merge one source entry `k: v` into the destination (`baseMerge`'s
per-key body, with `baseMergeDeep` inlined for object-typed `v`). -/
def mergeKey (dest : JObj) (k : String) (v : JVal) : JObj :=
  match v with
  | .arr _ => dest.set k v
  | .obj kvs =>
      match dest.lookup k with
      | some (.arr _) => dest.set k v
      | some (.obj o) => dest.set k (.obj (mergeEntries o kvs))
      | _ => dest.set k (.obj (mergeEntries .nil kvs))
  | _ => scalarAssign dest k v

end

/-- JS truthiness (`createAssigner` skips falsy sources). -/
def truthy : JVal → Bool
  | .null => false
  | .bool b => b
  | .num n => n != 0
  | .str s => s != ""
  | .arr _ => true
  | .obj _ => true

/-- `_.mergeWith({}, ...sources, customizer)`: fold the truthy sources into
the (initially empty) destination object.  The result is always a plain
object — the mutated `{}`. -/
def mergeList (dest : JObj) : List JVal → JObj
  | [] => dest
  | s :: rest => mergeList (if truthy s then mergeSource dest s else dest) rest

/-! ## Layer descriptors and the resolver closure

`createConfig(staticPart, dynamicPart)` (common.js lines 37–109) returns a
closure `(path, opts, config=staticPart) => ...`.  The descriptor fields
are dynamically probed in JS; each probe outcome is a constructor here:

* `collection`: a function of `opts`, a value exposing `.find` (a Meteor
  collection, modelled as `Store`), or anything else.  Note the source
  computes the "should either be a function or a Meteor Collection" error
  value for the last case but — unlike for `selector` and `pathPrefix` —
  never throws it: the subsequent `_collection.findOne(...)` call then
  raises a TypeError, since neither an `Error` object nor a non-collection
  function result has a `findOne` method.
* `selector`: a function of `opts` (its result is not validated), a plain
  object, or anything else (throws).
* `pathPrefix` and the requested `path`: a string, an array of segments,
  `undefined`, or anything else (throws).

`Store.find1` models `collection.findOne(selector)`: the single-document
lookup, returning the matched document or `undefined`.  The client-only
`{fields: {[pathInDocument]: 1}}` projection (lines 70–74) only restricts
the fetched fields and does not change the value `_.get` then reads, so it
is not modelled separately.
-/

/-- A Meteor-collection-like store handle: `findOne(selector)` returns the
matched document or `undefined`. -/
structure Store where
  find1 : JVal → Option JVal

/-- What a resolved `collection` value can be: a store handle, or any
value that does not expose the collection interface. -/
inductive ProviderVal where
  | store (s : Store)
  | notStore

/-- The `collection` field of a layer descriptor. -/
inductive ProviderSpec where
  | fn (f : JVal → ProviderVal)
  | val (v : ProviderVal)

/-- The `selector` field of a layer descriptor. -/
inductive SelectorSpec where
  | fn (f : JVal → JVal)
  | val (v : JVal)

/-- A path argument (`path` or `pathPrefix`): dotted string, segment
array, absent (`undefined`), or a value of any other type. -/
inductive PathInput where
  | str (s : String)
  | seg (l : List String)
  | absent
  | other

/-- One element of `dynamicPart`: `{collection, selector, pathPrefix}`. -/
structure LayerSpec where
  collection : ProviderSpec
  selector : SelectorSpec
  pathPrefix : PathInput

/-- The failures `createConfig`'s closure can raise, by the spec's
taxonomy. `typeErrorNotAFunction` is the JS `TypeError: _collection.findOne
is not a function`; `invalidProvider` names the Error value the source
constructs at lines 50–53 but never throws. -/
inductive CfgError where
  | invalidPath
  | invalidProvider
  | invalidSelector
  | invalidPathPrefix
  | undefinedStaticFallback
  | typeErrorNotAFunction
  deriving DecidableEq

/-- lodash `_.isPlainObject` on our values: only object literals. -/
def isPlainObject : JVal → Bool
  | .obj _ => true
  | _ => false

/-- Path normalization (common.js lines 39–44 for `path`, 61–66 for
`pathPrefix`): string → split on `.`; array → as-is; `undefined` → `[]`;
anything else → error. -/
def normalizePath (e : CfgError) : PathInput → Except CfgError (List String)
  | .str s => .ok (splitDot s)
  | .seg l => .ok l
  | .absent => .ok []
  | .other => .error e

/-- The body of the `map` over `dynamicPart` (common.js lines 47–77):
resolve `collection` (unvalidated!), validate `selector` and `pathPrefix`,
build `pathInDocument`, query and read the value out of the document. -/
def resolveLayer (path : List String) (opts : JVal) (sp : LayerSpec) :
    Except CfgError (Option JVal) :=
  let col : Option ProviderVal :=
    match sp.collection with
    | .fn f => some (f opts)
    | .val (.store s) => some (.store s)
    | .val .notStore => none
  match (match sp.selector with
         | .fn f => Except.ok (f opts)
         | .val v => if isPlainObject v then Except.ok v
                     else Except.error CfgError.invalidSelector : Except CfgError JVal) with
  | .error e => .error e
  | .ok sel =>
    match normalizePath CfgError.invalidPathPrefix sp.pathPrefix with
    | .error e => .error e
    | .ok pfx =>
      let pathInDocument := joinDot (pfx ++ path)
      match col with
      | some (.store st) => .ok (jgetDoc (st.find1 sel) pathInDocument)
      | some .notStore => .error CfgError.typeErrorNotAFunction
      | none => .error CfgError.typeErrorNotAFunction

/-- The `.map(spec => ...)` over `dynamicPart` (common.js lines 46–77):
apply the per-layer resolution in order; a thrown error aborts the map. -/
def mapLayers (f : LayerSpec → Except CfgError (Option JVal)) :
    List LayerSpec → Except CfgError (List (Option JVal))
  | [] => .ok []
  | l :: rest =>
      match f l with
      | .error e => .error e
      | .ok v =>
          match mapLayers f rest with
          | .error e => .error e
          | .ok vs => .ok (v :: vs)

/-- The `.filter(_.negate(_.isNil))` step: drop `undefined` and `null`
results from the mapped layer values. -/
def collectVals (vals : List (Option JVal)) : List JVal :=
  vals.filterMap fun ov =>
    match ov with
    | none => none
    | some .null => none
    | some v => some v

/-- Array elements of an array value; any other value is a one-element
list.  This is how `Array.prototype.concat` treats its argument: an array
argument is spread element-wise. -/
def jsSpread : JVal → List JVal
  | .arr xs => xs.toList
  | v => [v]

/-- `_.reverse(valuesFromDb.concat(valueFromStaticPart))` (common.js line
88): append the static value — spread if it is an array — then reverse,
giving the merge sequence in increasing order of authority. -/
def buildMergeSequence (valuesFromDb : List JVal) (staticVal : JVal) : List JVal :=
  (valuesFromDb ++ jsSpread staticVal).reverse

/-- The closure returned by `createConfig` (common.js lines 38–108):
`createConfig staticPart dynamicPart path opts` is
`createConfig(staticPart, dynamicPart)(path, opts)`.  `.ok none` is a
normal return of `undefined`; `.error e` is a thrown exception. -/
def createConfig (staticPart : JVal) (dynamicPart : List LayerSpec)
    (path : PathInput) (opts : JVal) : Except CfgError (Option JVal) :=
  match normalizePath CfgError.invalidPath path with
  | .error e => .error e
  | .ok _path =>
    match mapLayers (resolveLayer _path opts) dynamicPart with
    | .error e => .error e
    | .ok rawVals =>
      let valuesFromDb := collectVals rawVals
      if valuesFromDb.isEmpty then
        .ok (jget staticPart _path)
      else
        match jget staticPart _path with
        | none => .error CfgError.undefinedStaticFallback
        | some .null => .error CfgError.undefinedStaticFallback
        | some sv =>
            .ok (some (.obj (mergeList .nil (buildMergeSequence valuesFromDb sv))))

deriving instance DecidableEq for Except

/-! ## Concrete configurations and layers used by the theorems below -/

/-- The static configuration of the README/JSDoc example:
`{screen: {height: 'large', width: 'medium'}}`. -/
def staticScreen : JVal :=
  jobj [("screen", jobj [("height", .str "large"), ("width", .str "medium")])]

/-- The user document of the JSDoc example:
`{_id: 'current/user/id', settings: {screen: {height: 'small'}}}`. -/
def userDoc : JVal :=
  jobj [("_id", .str "current/user/id"),
        ("settings", jobj [("screen", jobj [("height", .str "small")])])]

/-- The layer of the JSDoc example: a collection whose `findOne` returns
`userDoc`, a selector function, and path prefix `['settings']`. -/
def userLayer : LayerSpec :=
  { collection := .val (.store ⟨fun _ => some userDoc⟩)
    selector := .fn (fun _ => jobj [("_id", .str "current/user/id")])
    pathPrefix := .seg ["settings"] }

/-- A static configuration holding the array `[1, 2]` at path `xs`. -/
def xsStatic : JVal := jobj [("xs", jarr [.num 1, .num 2])]

/-- A layer whose document holds the array `[3, 4]` at path `xs`. -/
def xsLayer : LayerSpec :=
  { collection := .val (.store ⟨fun _ => some (jobj [("xs", jarr [.num 3, .num 4])])⟩)
    selector := .val (jobj [])
    pathPrefix := .absent }

/-- Static configuration `{p: {k: xs}}` with an array under the nested key
`k` of the value at path `p`. -/
def nestedArrStatic (xs : JArr) : JVal :=
  jobj [("p", .obj (.cons "k" (.arr xs) .nil))]

/-- A layer whose document is `{p: {k: ys}}`: an array under the nested
key `k` of the value at path `p`. -/
def nestedArrLayer (ys : JArr) : LayerSpec :=
  { collection := .val (.store ⟨fun _ => some (jobj [("p", .obj (.cons "k" (.arr ys) .nil))])⟩)
    selector := .val (jobj [])
    pathPrefix := .absent }

/-- A layer whose document holds the number `1` at path `a`. -/
def numLayerA : LayerSpec :=
  { collection := .val (.store ⟨fun _ => some (jobj [("a", .num 1)])⟩)
    selector := .val (jobj [])
    pathPrefix := .absent }

/-- A layer whose document holds `null` at path `a`. -/
def nullLayerA : LayerSpec :=
  { collection := .val (.store ⟨fun _ => some (jobj [("a", .null)])⟩)
    selector := .val (jobj [])
    pathPrefix := .absent }

/-- A layer whose collection matches no document (`findOne` returns
`undefined`), so the layer has no value at any path. -/
def absentLayerA : LayerSpec :=
  { collection := .val (.store ⟨fun _ => none⟩)
    selector := .val (jobj [])
    pathPrefix := .absent }

/-- A layer whose `collection` is neither a function nor a value exposing
the collection interface, with a valid selector and no path prefix. -/
def badProviderLayer : LayerSpec :=
  { collection := .val .notStore
    selector := .val (jobj [])
    pathPrefix := .absent }

/-- A layer with the same invalid `collection` and an invalid `selector`
(a number is neither a function nor a plain object). -/
def badProviderBadSelectorLayer : LayerSpec :=
  { collection := .val .notStore
    selector := .val (.num 5)
    pathPrefix := .absent }

/-! ## Claim theorems -/

/-- C1: the end-to-end JSDoc example.  `resolve('screen.width')` returns
`'medium'` and `resolve('screen')` returns `{height: 'small', width:
'medium'}` as documented, but `resolve('screen.height')` does NOT return
the scalar `'small'`: the merge sequence is `['large', 'small']` and
`_.mergeWith({}, 'large', 'small', customizer)` enumerates each string's
character indices, so the call returns the plain object
`{0:'s', 1:'m', 2:'a', 3:'l', 4:'l'}` — contradicting the claim and the
source's own JSDoc example at common.js lines 28–29. -/
theorem claim_C1_jsdoc_example_divergence :
    createConfig staticScreen [userLayer] (.str "screen.height") (jobj [])
      = .ok (some (jobj [("0", .str "s"), ("1", .str "m"), ("2", .str "a"),
                         ("3", .str "l"), ("4", .str "l")]))
  ∧ createConfig staticScreen [userLayer] (.str "screen.height") (jobj [])
      ≠ .ok (some (.str "small"))
  ∧ createConfig staticScreen [userLayer] (.str "screen.width") (jobj [])
      = .ok (some (.str "medium"))
  ∧ createConfig staticScreen [userLayer] (.str "screen") (jobj [])
      = .ok (some (jobj [("height", .str "small"), ("width", .str "medium")])) :=
  ⟨by decide, by decide, by decide, by decide⟩

/-- C2 counterexample: with static `{xs: [1, 2]}` and a layer holding
`[3, 4]` at `xs`, `resolve('xs')` does not return the layer's array: the
merge target is always the plain object `{}`, so the call returns the
index-keyed object `{0: 3, 1: 4}` (and the static array is additionally
spread element-wise by `Array.prototype.concat`, its elements `2` and `1`
contributing no keys).  The result is not the layer's array. -/
theorem claim_C2_counterexample :
    createConfig xsStatic [xsLayer] (.str "xs") (jobj [])
      = .ok (some (jobj [("0", .num 3), ("1", .num 4)]))
  ∧ createConfig xsStatic [xsLayer] (.str "xs") (jobj [])
      ≠ .ok (some (jarr [.num 3, .num 4])) :=
  ⟨by decide, by decide⟩

/-- C2 amended: when the static array and the layer's array meet at a key
below the requested path, the resolved value holds exactly the layer's
array at that key — not a concatenation and not an element-wise merge; at
the requested path itself the result is an index-keyed plain object, not
an array (see the counterexample). -/
theorem claim_C2_amended_layer_array_wins (xs ys : JArr) :
    createConfig (nestedArrStatic xs) [nestedArrLayer ys] (.str "p") (jobj [])
      = .ok (some (.obj (.cons "k" (.arr ys) .nil))) := rfl

/-- C2 amended, witnessed at `xs = [1, 2]`, `ys = [3, 4]`. -/
theorem claim_C2_amended_witness :
    createConfig (nestedArrStatic (jarrOf [.num 1, .num 2]))
        [nestedArrLayer (jarrOf [.num 3, .num 4])] (.str "p") (jobj [])
      = .ok (some (.obj (.cons "k" (.arr (jarrOf [.num 3, .num 4])) .nil))) :=
  claim_C2_amended_layer_array_wins (jarrOf [.num 1, .num 2]) (jarrOf [.num 3, .num 4])

/-- C4: the source computes the `collection should either be a function or
a Meteor Collection` error value (common.js lines 50–53) for an invalid
provider but — unlike for `selector` and `pathPrefix` — never throws it.
With a valid selector, the call instead fails at the lookup step with a
TypeError (`_collection.findOne is not a function`), and an invalid
selector in the same layer is reported first: the provider failure is not
raised as `InvalidProviderError`, and not before the lookup is attempted. -/
theorem claim_C4_invalid_provider_divergence :
    createConfig (jobj [("a", .num 1)]) [badProviderLayer] (.str "a") (jobj [])
      = .error CfgError.typeErrorNotAFunction
  ∧ createConfig (jobj [("a", .num 1)]) [badProviderLayer] (.str "a") (jobj [])
      ≠ .error CfgError.invalidProvider
  ∧ createConfig (jobj [("a", .num 1)]) [badProviderBadSelectorLayer] (.str "a") (jobj [])
      = .error CfgError.invalidSelector :=
  ⟨by decide, by decide, by decide⟩

/-- C5 counterexample: with static configuration `{a: 1}` and no layers,
`resolve()` (absent path) returns `undefined`, not the entire static
configuration. -/
theorem claim_C5_counterexample :
    createConfig (jobj [("a", .num 1)]) [] .absent (jobj []) = .ok none
  ∧ createConfig (jobj [("a", .num 1)]) [] .absent (jobj [])
      ≠ .ok (some (jobj [("a", .num 1)])) :=
  ⟨by decide, by decide⟩

/-- C5 amended: an absent path does normalize to the empty segment
sequence (common.js line 42), but the empty sequence does not denote the
root: `_.get(config, [])` returns `undefined` in lodash (`baseGet`'s
`index && index == length` guard), so with no layers `resolve()` returns
`undefined` for every static configuration — never the static
configuration itself. -/
theorem claim_C5_amended_absent_path_undefined (S opts : JVal) :
    createConfig S [] .absent opts = .ok none
  ∧ createConfig S [] .absent opts ≠ .ok (some S) :=
  ⟨rfl, fun h => Option.noConfusion (Except.ok.inj h)⟩

/-- C6 counterexample: `valuesFromDb.concat(valueFromStaticPart)` is JS
`Array.prototype.concat`, which spreads an array-valued static value
element-wise instead of appending it as one element.  With one layer value
`3` and static value `[1, 2]`, the built merge sequence is `[2, 1, 3]`,
not the claimed `reverse([3] ++ [[1, 2]]) = [[1, 2], 3]`. -/
theorem claim_C6_counterexample :
    buildMergeSequence [.num 3] (jarr [.num 1, .num 2])
      ≠ ([JVal.num 3] ++ [jarr [.num 1, .num 2]]).reverse
  ∧ buildMergeSequence [.num 3] (jarr [.num 1, .num 2]) = [.num 2, .num 1, .num 3] :=
  ⟨by decide, by decide⟩

/-- C6 amended: when the static value is not an array, the merge sequence
is exactly the reverse of `layerValues ++ [staticValue]` — static value
first, then layer values from lowest to highest authority — and in every
case the highest-authority layer's value is the last element of the
sequence, hence merged last.  (When the static value IS an array, its
elements are spread individually at the front instead, see the
counterexample.) -/
theorem claim_C6_amended_merge_order (vs : List JVal) (sv : JVal)
    (h : ∀ xs, sv ≠ .arr xs) :
    buildMergeSequence vs sv = (vs ++ [sv]).reverse
  ∧ ∀ (v : JVal) (vs' : List JVal),
      (buildMergeSequence (v :: vs') sv).getLast? = some v := by
  constructor
  · cases sv <;> first | rfl | exact absurd rfl (h _)
  · intro v vs'
    simp [buildMergeSequence, List.getLast?_reverse]

/-- C6 amended, witnessed at one layer value `3` and static value `"x"`. -/
theorem claim_C6_amended_witness :
    buildMergeSequence [.num 3] (.str "x") = ([JVal.num 3] ++ [JVal.str "x"]).reverse
  ∧ ∀ (v : JVal) (vs' : List JVal),
      (buildMergeSequence (v :: vs') (.str "x")).getLast? = some v :=
  claim_C6_amended_merge_order [.num 3] (.str "x") (fun _ h => JVal.noConfusion h)

/-- C7: a dotted-string path and its split segment-sequence form resolve
identically, for every static configuration, layer list and options —
both normalize to the same canonical segment list (common.js lines
39–43). -/
theorem claim_C7_path_equivalence (S : JVal) (layers : List LayerSpec)
    (s : String) (opts : JVal) :
    createConfig S layers (.str s) opts
      = createConfig S layers (.seg (splitDot s)) opts := rfl

/-- C7 witnessed on the JSDoc example at path `'screen.height'` versus
`['screen', 'height']`. -/
theorem claim_C7_witness :
    createConfig staticScreen [userLayer] (.str "screen.height") (jobj [])
      = createConfig staticScreen [userLayer] (.seg ["screen", "height"]) (jobj []) := by
  have h := claim_C7_path_equivalence staticScreen [userLayer] "screen.height" (jobj [])
  rw [show splitDot "screen.height" = ["screen", "height"] from by decide] at h
  exact h

/-- C8: with an empty layer list, `resolve` is plain lodash path lookup in
the static configuration — no merge is performed and the stored value is
returned as-is (common.js lines 46, 105–107). -/
theorem claim_C8_no_layers_identity (S opts : JVal) (p : PathInput)
    (np : List String) (h : normalizePath CfgError.invalidPath p = .ok np) :
    createConfig S [] p opts = .ok (jget S np) := by
  unfold createConfig
  rw [h]
  rfl

/-- C8 witnessed on the JSDoc static configuration at path `'screen'`. -/
theorem claim_C8_witness :
    createConfig staticScreen [] (.str "screen") (jobj [])
      = .ok (jget staticScreen ["screen"]) :=
  claim_C8_no_layers_identity staticScreen (jobj []) (.str "screen") ["screen"] (by decide)

/-- Writing one key of an object leaves every other key unchanged. -/
theorem lookup_set_ne : ∀ (d : JObj) (k' k : String) (v : JVal), k' ≠ k →
    (d.set k' v).lookup k = d.lookup k
  | .nil, k', k, v, h => by simp [JObj.set, JObj.lookup, h]
  | .cons k0 v0 rest, k', k, v, h => by
      by_cases h0 : k0 = k'
      · subst h0
        simp [JObj.set, JObj.lookup, h]
      · simp [JObj.set, JObj.lookup, h0, lookup_set_ne rest k' k v h]

/-- The scalar merge branch only writes its own key. -/
theorem scalarAssign_lookup_ne (d : JObj) (k' k : String) (v : JVal) (h : k' ≠ k) :
    (scalarAssign d k' v).lookup k = d.lookup k := by
  unfold scalarAssign
  cases hd : d.lookup k' with
  | none => exact lookup_set_ne d k' k _ h
  | some w => cases w <;> cases v <;> first | rfl | exact lookup_set_ne d k' k _ h

/-- Merging one source entry only writes its own key. -/
theorem mergeKey_lookup_ne (d : JObj) (k' k : String) (v : JVal) (h : k' ≠ k) :
    (mergeKey d k' v).lookup k = d.lookup k := by
  cases v with
  | arr xs => exact lookup_set_ne d k' k _ h
  | obj kvs =>
      unfold mergeKey
      cases hd : d.lookup k' with
      | none => exact lookup_set_ne d k' k _ h
      | some w => cases w <;> exact lookup_set_ne d k' k _ h
  | null => exact scalarAssign_lookup_ne d k' k _ h
  | bool b => exact scalarAssign_lookup_ne d k' k _ h
  | num n => exact scalarAssign_lookup_ne d k' k _ h
  | str s => exact scalarAssign_lookup_ne d k' k _ h

/-- Merging an object source that lacks a key leaves the destination's
value at that key unchanged. -/
theorem mergeEntries_lookup_absent : ∀ (src d : JObj) (k : String),
    src.hasKey k = false → (mergeEntries d src).lookup k = d.lookup k
  | .nil, d, k, _ => rfl
  | .cons k0 v0 rest, d, k, habs => by
      simp only [JObj.hasKey, Bool.or_eq_false_iff, decide_eq_false_iff_not] at habs
      show (mergeEntries (mergeKey d k0 v0) rest).lookup k = d.lookup k
      rw [mergeEntries_lookup_absent rest _ _ habs.2, mergeKey_lookup_ne _ _ _ _ habs.1]

/-- C3: whenever the collected non-nil layer values at the requested path
are non-empty but the static configuration's lookup at that path is nil
(absent or `null`), resolution throws the undefined-static-fallback error
(common.js lines 81–85): a layer may override a path but never introduce
one. -/
theorem claim_C3_missing_static_fallback (S opts : JVal) (layers : List LayerSpec)
    (p : PathInput) (np : List String) (vs : List (Option JVal))
    (hnorm : normalizePath CfgError.invalidPath p = .ok np)
    (hmap : mapLayers (resolveLayer np opts) layers = .ok vs)
    (hsome : collectVals vs ≠ [])
    (hnil : jget S np = none ∨ jget S np = some .null) :
    createConfig S layers p opts = .error CfgError.undefinedStaticFallback := by
  cases hc : collectVals vs with
  | nil => exact absurd hc hsome
  | cons a t =>
      rcases hnil with h | h <;> simp [createConfig, hnorm, hmap, hc, h]

/-- C3 witnessed: empty static configuration, one layer holding `1` at
path `a`. -/
theorem claim_C3_witness :
    createConfig (jobj []) [numLayerA] (.str "a") (jobj [])
      = .error CfgError.undefinedStaticFallback :=
  claim_C3_missing_static_fallback (jobj []) (jobj []) [numLayerA] (.str "a") ["a"]
    [some (.num 1)] (by decide) (by decide) (by decide) (Or.inl (by decide))

/-- C9: during a merge, an array in the destination at a key is preserved
unchanged when the more authoritative source holds `null` at that key (the
customizer's `left` branch) or lacks the key entirely (the merge iterates
only source keys) — a layer returning absent or `null` at a sub-path never
erases a static array there. -/
theorem claim_C9_nil_preserves_array (d : JObj) (k : String) (a : JArr)
    (src : JObj) (hlook : d.lookup k = some (.arr a)) (habs : src.hasKey k = false) :
    (mergeKey d k .null).lookup k = some (.arr a)
  ∧ (mergeEntries d src).lookup k = some (.arr a) := by
  refine ⟨?_, ?_⟩
  · show (scalarAssign d k .null).lookup k = some (.arr a)
    unfold scalarAssign
    rw [hlook]
    exact hlook
  · rw [mergeEntries_lookup_absent src d k habs]
    exact hlook

/-- C9 witnessed: destination `{xs: [1], b: 0}`, source `{b: 2}`. -/
theorem claim_C9_witness :
    (mergeKey (jobjOf [("xs", jarr [.num 1]), ("b", .num 0)]) "xs" .null).lookup "xs"
      = some (.arr (jarrOf [.num 1]))
  ∧ (mergeEntries (jobjOf [("xs", jarr [.num 1]), ("b", .num 0)])
        (jobjOf [("b", .num 2)])).lookup "xs"
      = some (.arr (jarrOf [.num 1])) :=
  claim_C9_nil_preserves_array _ "xs" (jarrOf [.num 1]) _ (by decide) (by decide)

/-- C10: a layer whose document holds `null` at the lookup path behaves
exactly like a layer with no document there — both are dropped by the nil
filter (common.js line 78) before merging, for every static configuration,
trailing layer list and options; and a static configuration holding `null`
at the requested path counts as having no value, so a layer override
triggers the undefined-static-fallback failure (lines 82–85). -/
theorem claim_C10_null_like_absent :
    (∀ (S opts : JVal) (rest : List LayerSpec),
       createConfig S (nullLayerA :: rest) (.str "a") opts
         = createConfig S (absentLayerA :: rest) (.str "a") opts)
  ∧ createConfig (jobj [("a", .null)]) [numLayerA] (.str "a") (jobj [])
      = .error CfgError.undefinedStaticFallback := by
  constructor
  · intro S opts rest
    have h1 : resolveLayer (splitDot "a") opts nullLayerA = .ok (some .null) := rfl
    have h2 : resolveLayer (splitDot "a") opts absentLayerA = .ok none := rfl
    unfold createConfig
    simp only [normalizePath, mapLayers, h1, h2]
    cases hr : mapLayers (resolveLayer (splitDot "a") opts) rest with
    | error e => rfl
    | ok vs => rfl
  · decide

/-- C10 witnessed: with static `{xs: [1, 2]}` the two layers resolve to
the same value at path `a`. -/
theorem claim_C10_witness :
    createConfig xsStatic [nullLayerA] (.str "a") (jobj [])
      = createConfig xsStatic [absentLayerA] (.str "a") (jobj []) :=
  claim_C10_null_like_absent.1 xsStatic (jobj []) []
